import Mathlib

/-!
Shallow embedding of the meet-translator real-time translation pipeline
(backend/src/services/AudioPipeline.ts, GoogleTranslation.ts, ElevenLabsTTS.ts,
ElevenLabsSTT.ts and backend/src/utils/metrics.ts), together with theorems
settling the frozen claims about the natural-language specification.

Network calls are modelled by oracles (explicit parameters carrying each
call's outcome), timestamps by explicit `Nat` parameters, and JS exceptions
by `Except String`.
-/

/-- The fixed enumerated language set, `SupportedLanguage` in types.ts:
`'ja' | 'zh-Hant-TW' | 'fr'`. -/
inductive SupportedLanguage
  | ja
  | zhHantTW
  | fr
deriving DecidableEq, Repr

/-- `STTResult` from types.ts. Confidence is a JS number; it is modelled as `ℚ`. -/
structure STTResult where
  text : String
  language : SupportedLanguage
  isFinal : Bool
  confidence : ℚ
  timestamp : Nat
  speakerId : Option String := none
deriving DecidableEq, Repr

/-- `TranslationResult` from types.ts. -/
structure TranslationResult where
  originalText : String
  translatedText : String
  sourceLang : SupportedLanguage
  targetLang : SupportedLanguage
  confidence : ℚ
  timestamp : Nat
  isInterim : Option Bool := none
deriving DecidableEq, Repr

/-- `TTSResult` from types.ts; the audio buffer is a byte list. -/
structure TTSResult where
  audioData : List Nat
  language : SupportedLanguage
  timestamp : Nat
deriving DecidableEq, Repr

/-- `MeetingConfig` from types.ts (voiceSettings omitted: unused by the
pipeline paths under study). -/
structure MeetingConfig where
  meetingUrl : String
  targetLanguages : List SupportedLanguage
  enableVoice : Bool
  enableSubtitles : Bool
  glossaryId : Option String := none
deriving DecidableEq, Repr

/-- `LatencyMetrics` from types.ts; durations are JS numbers produced by
subtraction, modelled as `Int`. -/
structure LatencyMetrics where
  sttLatency : Int
  translationLatency : Int
  ttsLatency : Int
  totalLatency : Int
deriving DecidableEq, Repr

/-- `PipelineState` from types.ts. -/
structure PipelineState where
  isActive : Bool
  currentSpeaker : Option String := none
  latencyMetrics : LatencyMetrics
deriving DecidableEq, Repr

/-! ## GoogleTranslation (GoogleTranslation.ts) -/

/-- `GoogleTranslation.translate` (GoogleTranslation.ts lines 25-84), success
path. The backend's translation output is supplied by the oracle
`translatedOf` and `Date.now()` by `now`; the confidence is the fixed 0.9 of
the source. -/
def GoogleTranslation.translate (translatedOf : SupportedLanguage → String)
    (now : Nat) (text : String)
    (sourceLang targetLang : SupportedLanguage) : TranslationResult :=
  { originalText := text
    translatedText := translatedOf targetLang
    sourceLang := sourceLang
    targetLang := targetLang
    confidence := 9 / 10
    timestamp := now }

/-- `GoogleTranslation.translateMultiple` (GoogleTranslation.ts lines 89-102),
success path of the `Promise.all` join: the targets are filtered by
`lang !== sourceLang` and each remaining target is translated, in order. -/
def GoogleTranslation.translateMultiple (translatedOf : SupportedLanguage → String)
    (now : Nat) (text : String) (sourceLang : SupportedLanguage)
    (targetLangs : List SupportedLanguage) : List TranslationResult :=
  (targetLangs.filter (fun lang => lang != sourceLang)).map
    (fun targetLang =>
      GoogleTranslation.translate translatedOf now text sourceLang targetLang)

/-! ## ElevenLabsTTS voice profiles (ElevenLabsTTS.ts) -/

/-- One per-language voice profile, the value type of the
`voiceSettings` record in ElevenLabsTTS.ts lines 248-255. -/
structure VoiceSetting where
  voiceId : String
  stability : ℚ
  similarityBoost : ℚ
deriving DecidableEq, Repr

/-- The argument of `ElevenLabsTTS.setVoiceSettings`: every field optional
(`voiceId?`, `stability?`, `similarityBoost?`). -/
structure VoiceSettingsUpdate where
  voiceId : Option String := none
  stability : Option ℚ := none
  similarityBoost : Option ℚ := none
deriving DecidableEq, Repr

/-- The default `voiceSettings` record built in the ElevenLabsTTS
constructor (ElevenLabsTTS.ts lines 262-278). -/
def ElevenLabsTTS.defaultVoiceSettings : SupportedLanguage → VoiceSetting
  | .ja => { voiceId := "EXAVITQu4vr4xnSDxMaL", stability := 1 / 2, similarityBoost := 3 / 4 }
  | .zhHantTW => { voiceId := "pNInz6obpgDQGcFmaJgB", stability := 1 / 2, similarityBoost := 3 / 4 }
  | .fr => { voiceId := "ThT5KcBeYPX3keUQqHPh", stability := 1 / 2, similarityBoost := 3 / 4 }

/-- JS `a || b` on strings: the left side wins unless it is falsy
(absent or the empty string). Used for `settings.voiceId || current.voiceId`. -/
def jsStringOr (a : Option String) (b : String) : String :=
  match a with
  | some s => if s = "" then b else s
  | none => b

/-- JS `a ?? b` on numbers: the left side wins unless it is null/undefined.
Used for `settings.stability ?? current.stability`. -/
def jsNullish (a : Option ℚ) (b : ℚ) : ℚ :=
  match a with
  | some q => q
  | none => b

/-- `ElevenLabsTTS.setVoiceSettings` (ElevenLabsTTS.ts lines 360-380): replaces
the profile of `language` by the merge
`{ voiceId: settings.voiceId || current.voiceId,
   stability: settings.stability ?? current.stability,
   similarityBoost: settings.similarityBoost ?? current.similarityBoost }`,
leaving the record's other entries alone. (The `!current` throw never fires:
the record is total over the three supported languages.) -/
def ElevenLabsTTS.setVoiceSettings (voiceSettings : SupportedLanguage → VoiceSetting)
    (language : SupportedLanguage) (settings : VoiceSettingsUpdate) :
    SupportedLanguage → VoiceSetting :=
  fun l =>
    if l = language then
      let current := voiceSettings language
      { voiceId := jsStringOr settings.voiceId current.voiceId
        stability := jsNullish settings.stability current.stability
        similarityBoost := jsNullish settings.similarityBoost current.similarityBoost }
    else voiceSettings l

/-! ## ElevenLabsSTT (backend/src/services/ElevenLabsSTT.ts) -/

/-- The mutable fields of the `ElevenLabsSTT` adapter: whether `this.ws`
is non-null, `this.isConnected`, and `this.reconnectAttempts`. -/
structure STTState where
  wsPresent : Bool
  isConnected : Bool
  reconnectAttempts : Nat
deriving DecidableEq, Repr

/-- Observable actions of the adapter: an `emit(name)` on the EventEmitter, or
a `setTimeout` of `this.connect()` after `delay` milliseconds. -/
inductive STTEffect
  | emit (name : String)
  | scheduleReconnect (delay : Nat)
deriving DecidableEq, Repr

/-- `this.maxReconnectAttempts = 5` (ElevenLabsSTT.ts line 14). -/
def ElevenLabsSTT.maxReconnectAttempts : Nat := 5

/-- `ElevenLabsSTT.handleReconnect` (ElevenLabsSTT.ts lines 122-141): at or
beyond the attempt cap it only emits `max_reconnect_attempts`; otherwise it
increments the counter and schedules `connect()` after
`Math.min(1000 * Math.pow(2, attempts), 30000)` ms. -/
def ElevenLabsSTT.handleReconnect (s : STTState) : STTState × List STTEffect :=
  if s.reconnectAttempts ≥ ElevenLabsSTT.maxReconnectAttempts then
    (s, [.emit "max_reconnect_attempts"])
  else
    let attempts := s.reconnectAttempts + 1
    let delay := min (1000 * 2 ^ attempts) 30000
    ({ s with reconnectAttempts := attempts }, [.scheduleReconnect delay])

/-- The `ws.on('open', ...)` handler (ElevenLabsSTT.ts lines 30-36): marks the
adapter connected, resets the attempt counter to zero, emits `connected`. -/
def ElevenLabsSTT.onOpen (s : STTState) : STTState × List STTEffect :=
  ({ s with isConnected := true, reconnectAttempts := 0 }, [.emit "connected"])

/-- The `ws.on('close', ...)` handler (ElevenLabsSTT.ts lines 48-53): marks the
adapter disconnected, emits `disconnected`, then runs `handleReconnect` —
unconditionally, with no check of whether the close was explicit. -/
def ElevenLabsSTT.onClose (s : STTState) : STTState × List STTEffect :=
  let s1 : STTState := { s with isConnected := false }
  let step := ElevenLabsSTT.handleReconnect s1
  (step.1, .emit "disconnected" :: step.2)

/-- `ElevenLabsSTT.disconnect` (ElevenLabsSTT.ts lines 162-168): when a socket
is present it calls `ws.close()`, nulls `this.ws` and clears `isConnected`.
The returned flag records whether `ws.close()` was called — in which case the
socket's `close` event (the `onClose` handler above, still registered on the
socket object) is subsequently delivered. -/
def ElevenLabsSTT.disconnect (s : STTState) : STTState × Bool :=
  if s.wsPresent then
    ({ s with wsPresent := false, isConnected := false }, true)
  else (s, false)

/-- Effect trace of `n` consecutive socket `close` deliveries from state `s`
with no intervening successful connection. -/
def ElevenLabsSTT.closesFrom (s : STTState) : Nat → List STTEffect
  | 0 => []
  | n + 1 =>
    let step := ElevenLabsSTT.onClose s
    step.2 ++ ElevenLabsSTT.closesFrom step.1 n

/-- `ElevenLabsSTT.mapLanguageCode`'s lookup table
(ElevenLabsSTT.ts lines 147-154). -/
def ElevenLabsSTT.languageMapping : List (String × SupportedLanguage) :=
  [("ja", .ja), ("ja-JP", .ja),
   ("zh-TW", .zhHantTW), ("zh-Hant", .zhHantTW),
   ("fr", .fr), ("fr-FR", .fr)]

/-- The fallback of `mapLanguageCode`: `mapping[code] || 'ja'`. -/
def ElevenLabsSTT.fallbackLanguage : SupportedLanguage := .ja

/-- `ElevenLabsSTT.mapLanguageCode` (ElevenLabsSTT.ts lines 146-157): table
lookup with fallback to `'ja'` for unmapped codes. -/
def ElevenLabsSTT.mapLanguageCode (code : String) : SupportedLanguage :=
  (ElevenLabsSTT.languageMapping.lookup code).getD ElevenLabsSTT.fallbackLanguage

/-! ## metrics.ts: LatencyTracker and MetricsAggregator -/

/-- `LatencyTracker` (metrics.ts lines 6-65): creation time plus a JS `Map`
of checkpoint name to elapsed milliseconds, modelled as an insertion-ordered
association list. Elapsed values are `Int` (JS number subtraction). -/
structure LatencyTracker where
  startTime : Nat
  checkpoints : List (String × Int)
deriving DecidableEq, Repr

/-- The `LatencyTracker` constructor: `startTime = Date.now()`, empty map. -/
def LatencyTracker.new (now : Nat) : LatencyTracker :=
  { startTime := now, checkpoints := [] }

/-- JS `Map.set`: overwrite an existing key in place, else append. -/
def mapSet (k : String) (v : Int) : List (String × Int) → List (String × Int)
  | [] => [(k, v)]
  | (k0, v0) :: rest =>
    if k0 = k then (k0, v) :: rest else (k0, v0) :: mapSet k v rest

/-- `LatencyTracker.checkpoint` (metrics.ts lines 18-23): stores
`Date.now() - startTime` under `name`. -/
def LatencyTracker.checkpoint (t : LatencyTracker) (now : Nat) (name : String) :
    LatencyTracker :=
  { t with checkpoints := mapSet name ((now : Int) - (t.startTime : Int)) t.checkpoints }

/-- `LatencyTracker.getDuration` (metrics.ts lines 28-37): difference of two
checkpoints, 0 when either is absent (never throws). -/
def LatencyTracker.getDuration (t : LatencyTracker) (start stop : String) : Int :=
  match t.checkpoints.lookup start, t.checkpoints.lookup stop with
  | some s, some e => e - s
  | _, _ => 0

/-- `LatencyTracker.getTotalDuration` (metrics.ts lines 42-44):
`Date.now() - startTime`. -/
def LatencyTracker.getTotalDuration (t : LatencyTracker) (now : Nat) : Int :=
  (now : Int) - (t.startTime : Int)

/-- The four sample buckets of `MetricsAggregator` (metrics.ts lines 70-85). -/
structure MetricsAggregator where
  stt : List Int
  translation : List Int
  tts : List Int
  total : List Int
deriving DecidableEq, Repr

/-- The `MetricsAggregator` constructor: four empty buckets. -/
def MetricsAggregator.new : MetricsAggregator :=
  { stt := [], translation := [], tts := [], total := [] }

/-- The bucket names accepted by `addMetric` (`keyof typeof this.metrics`). -/
inductive MetricType
  | stt
  | translation
  | tts
  | total
deriving DecidableEq, Repr

/-- Bucket projection of a `MetricsAggregator`. -/
def MetricsAggregator.bucket (m : MetricsAggregator) : MetricType → List Int
  | .stt => m.stt
  | .translation => m.translation
  | .tts => m.tts
  | .total => m.total

/-- `MetricsAggregator.addMetric` (metrics.ts lines 90-92): pushes `value`
onto the named bucket. -/
def MetricsAggregator.addMetric (m : MetricsAggregator) (t : MetricType)
    (value : Int) : MetricsAggregator :=
  match t with
  | .stt => { m with stt := m.stt ++ [value] }
  | .translation => { m with translation := m.translation ++ [value] }
  | .tts => { m with tts := m.tts ++ [value] }
  | .total => { m with total := m.total ++ [value] }

/-- `MetricsAggregator.getAverage` (metrics.ts lines 97-101): 0 on an empty
bucket, otherwise the sum divided by the count (exact rational). -/
def MetricsAggregator.getAverage (m : MetricsAggregator) (t : MetricType) : ℚ :=
  let values := m.bucket t
  if values.length = 0 then 0
  else ((values.sum : ℚ) / (values.length : ℚ))

/-- Ascending insertion used to model the JS `sort((a, b) => a - b)`. -/
def insertAsc (x : Int) : List Int → List Int
  | [] => [x]
  | y :: rest => if x ≤ y then x :: y :: rest else y :: insertAsc x rest

/-- Ascending sort used to model the JS `sort((a, b) => a - b)`. -/
def sortAsc : List Int → List Int
  | [] => []
  | x :: rest => insertAsc x (sortAsc rest)

/-- `MetricsAggregator.getMedian` (metrics.ts lines 106-113): 0 on an empty
bucket; the average of the two central sorted values on an even count,
the central sorted value on an odd count. -/
def MetricsAggregator.getMedian (m : MetricsAggregator) (t : MetricType) : ℚ :=
  let values := sortAsc (m.bucket t)
  if values.length = 0 then 0
  else
    let mid := values.length / 2
    if values.length % 2 = 0 then
      (((values.getD (mid - 1) 0 : ℚ) + (values.getD mid 0 : ℚ)) / 2)
    else (values.getD mid 0 : ℚ)

/-! ## AudioPipeline (AudioPipeline.ts) -/

/-- The events `processAudioChunk` can emit (AudioPipeline.ts): `stt_partial`
(here `sttNonFinal`), `stt_final`, `translations`, `tts_results`,
`subtitles`, and `error`. -/
inductive PipelineEvent
  | sttNonFinal (r : STTResult)
  | sttFinal (r : STTResult)
  | translations (ts : List TranslationResult)
  | ttsResults (rs : List TTSResult)
  | subtitles (ts : List TranslationResult)
  | errorEvent (msg : String)
deriving DecidableEq, Repr

/-- The adapter stages `processAudioChunk` can invoke. -/
inductive AdapterCall
  | stt
  | translation
  | tts
deriving DecidableEq, Repr

/-- Outcomes of the awaited stage calls of one chunk: `performSTT`,
`performTranslation`, `performTTS`. A JS rejection/throw is `Except.error`
carrying the failure's message. -/
structure StageOracles where
  stt : Except String STTResult
  translation : STTResult → Except String (List TranslationResult)
  tts : List TranslationResult → Except String (List TTSResult)

/-- The `Date.now()` readings taken during one chunk's processing: tracker
creation, each checkpoint, and the final `getTotalDuration` call. -/
structure ChunkTimes where
  t0 : Nat
  sttStart : Nat
  sttEnd : Nat
  trStart : Nat
  trEnd : Nat
  ttsStart : Nat
  ttsEnd : Nat
  tEnd : Nat
deriving DecidableEq, Repr

/-- Everything observable about one `processAudioChunk` call: the events
emitted in order, the pipeline state and metrics aggregator afterwards, and
which adapter stages were invoked. -/
structure ChunkOutcome where
  events : List PipelineEvent
  state : PipelineState
  metrics : MetricsAggregator
  calls : List AdapterCall
deriving DecidableEq, Repr

/-- `AudioPipeline.processAudioChunk` (AudioPipeline.ts lines 484-554).
Transcribed branch by branch: the inactive early return; the
`stt_start`/`stt_end` checkpoints around `performSTT`; the partial-result
early return; the `stt_final` emit; the translation checkpoints and
`translations` emit; the voice-gated TTS block; the subtitle-gated
`subtitles` emit; the latency computation (`ttsLatency` is 0 when voice is
disabled) with the four `addMetric` calls and the latency-snapshot state
update; and the top-level catch that emits `error` instead of rethrowing. -/
def AudioPipeline.processAudioChunk (cfg : MeetingConfig) (st : PipelineState)
    (m : MetricsAggregator) (stages : StageOracles) (times : ChunkTimes) :
    ChunkOutcome :=
  if st.isActive = false then
    { events := [], state := st, metrics := m, calls := [] }
  else
    let tracker := LatencyTracker.new times.t0
    let tracker := tracker.checkpoint times.sttStart "stt_start"
    match stages.stt with
    | .error e =>
      { events := [.errorEvent e], state := st, metrics := m, calls := [.stt] }
    | .ok sttResult =>
      let tracker := tracker.checkpoint times.sttEnd "stt_end"
      if sttResult.isFinal = false then
        { events := [.sttNonFinal sttResult], state := st, metrics := m,
          calls := [.stt] }
      else
        let tracker := tracker.checkpoint times.trStart "translation_start"
        match stages.translation sttResult with
        | .error e =>
          { events := [.sttFinal sttResult, .errorEvent e], state := st,
            metrics := m, calls := [.stt, .translation] }
        | .ok translations =>
          let tracker := tracker.checkpoint times.trEnd "translation_end"
          if cfg.enableVoice then
            let tracker := tracker.checkpoint times.ttsStart "tts_start"
            match stages.tts translations with
            | .error e =>
              { events := [.sttFinal sttResult, .translations translations,
                           .errorEvent e],
                state := st, metrics := m, calls := [.stt, .translation, .tts] }
            | .ok ttsResults =>
              let tracker := tracker.checkpoint times.ttsEnd "tts_end"
              let subtitleEvents :=
                if cfg.enableSubtitles then [PipelineEvent.subtitles translations]
                else []
              let sttLatency := tracker.getDuration "stt_start" "stt_end"
              let translationLatency :=
                tracker.getDuration "translation_start" "translation_end"
              let ttsLatency := tracker.getDuration "tts_start" "tts_end"
              let totalLatency := tracker.getTotalDuration times.tEnd
              let m :=
                ((((m.addMetric .stt sttLatency).addMetric .translation
                  translationLatency).addMetric .tts ttsLatency).addMetric .total
                  totalLatency)
              { events := [.sttFinal sttResult, .translations translations,
                           .ttsResults ttsResults] ++ subtitleEvents
                state := { st with latencyMetrics :=
                  { sttLatency := sttLatency
                    translationLatency := translationLatency
                    ttsLatency := ttsLatency
                    totalLatency := totalLatency } }
                metrics := m, calls := [.stt, .translation, .tts] }
          else
            let subtitleEvents :=
              if cfg.enableSubtitles then [PipelineEvent.subtitles translations]
              else []
            let sttLatency := tracker.getDuration "stt_start" "stt_end"
            let translationLatency :=
              tracker.getDuration "translation_start" "translation_end"
            let ttsLatency : Int := 0
            let totalLatency := tracker.getTotalDuration times.tEnd
            let m :=
              ((((m.addMetric .stt sttLatency).addMetric .translation
                translationLatency).addMetric .tts ttsLatency).addMetric .total
                totalLatency)
            { events := [.sttFinal sttResult, .translations translations]
                ++ subtitleEvents
              state := { st with latencyMetrics :=
                { sttLatency := sttLatency
                  translationLatency := translationLatency
                  ttsLatency := ttsLatency
                  totalLatency := totalLatency } }
              metrics := m, calls := [.stt, .translation] }

/-! ## Theorems -/

/-- Removing the single occurrence of a member from a duplicate-free list by
filtering drops the length by exactly one. -/
lemma length_filter_ne_of_nodup {α : Type} [DecidableEq α] (src : α) :
    ∀ l : List α, l.Nodup → src ∈ l →
      (l.filter (fun x => x != src)).length = l.length - 1 := by
  intro l
  induction l with
  | nil => intro _ h; cases h
  | cons a t ih =>
    intro hnd hmem
    rcases List.nodup_cons.mp hnd with ⟨hna, hndt⟩
    by_cases ha : a = src
    · subst ha
      have hall : t.filter (fun x => x != a) = t := by
        apply List.filter_eq_self.mpr
        intro x hx
        simp only [bne_iff_ne, ne_eq]
        intro hxa
        exact hna (hxa ▸ hx)
      simp [hall]
    · have hsrc : src ∈ t := by
        rcases List.mem_cons.mp hmem with h | h
        · exact absurd h.symm ha
        · exact h
      have htpos : 0 < t.length := List.length_pos.mpr (List.ne_nil_of_mem hsrc)
      have : (a != src) = true := bne_iff_ne.mpr ha
      simp only [List.filter_cons, this, if_true, List.length_cons]
      rw [ih hndt hsrc]
      omega

/-- C1: for every duplicate-free target-language list that contains the
detected source language, `translateMultiple` produces exactly N−1
TranslationResults, one per configured target distinct from the source,
ordered as in the configured list with the source skipped. -/
theorem translateMultiple_fanout_count_and_order
    (translatedOf : SupportedLanguage → String) (now : Nat) (text : String)
    (src : SupportedLanguage) (targets : List SupportedLanguage)
    (hnd : targets.Nodup) (hmem : src ∈ targets) :
    (GoogleTranslation.translateMultiple translatedOf now text src targets).length
      = targets.length - 1
    ∧ (GoogleTranslation.translateMultiple translatedOf now text src targets).map
        (fun r => r.targetLang)
      = targets.filter (fun lang => lang != src) := by
  constructor
  · simp only [GoogleTranslation.translateMultiple, List.length_map]
    exact length_filter_ne_of_nodup src targets hnd hmem
  · simp only [GoogleTranslation.translateMultiple, List.map_map]
    generalize List.filter (fun lang => lang != src) targets = l
    induction l with
    | nil => rfl
    | cons a t ih =>
      simp only [List.map_cons, ih]
      rfl

/-- Witness for C1: config `[ja, zh-Hant-TW, fr]` with source `ja` yields
2 = 3 − 1 results targeting `zh-Hant-TW` and `fr` in that order. -/
theorem translateMultiple_fanout_witness :
    (GoogleTranslation.translateMultiple (fun _ => "bonjour") 7 "こんにちは" .ja
      [.ja, .zhHantTW, .fr]).length
      = ([SupportedLanguage.ja, .zhHantTW, .fr] : List SupportedLanguage).length - 1
    ∧ (GoogleTranslation.translateMultiple (fun _ => "bonjour") 7 "こんにちは" .ja
      [.ja, .zhHantTW, .fr]).map (fun r => r.targetLang)
      = ([SupportedLanguage.ja, .zhHantTW, .fr] : List SupportedLanguage).filter
          (fun lang => lang != SupportedLanguage.ja) :=
  translateMultiple_fanout_count_and_order (fun _ => "bonjour") 7 "こんにちは" .ja
    [.ja, .zhHantTW, .fr] (by decide) (by decide)

/-- C6: every language code in the adapter's lookup table is normalized to its
table entry, and every code missing from the table is mapped to the fallback
language (`'ja'`) rather than failing. -/
theorem mapLanguageCode_table_and_fallback :
    (∀ code lang, (code, lang) ∈ ElevenLabsSTT.languageMapping →
      ElevenLabsSTT.mapLanguageCode code = lang)
    ∧ (∀ code, ElevenLabsSTT.languageMapping.lookup code = none →
      ElevenLabsSTT.mapLanguageCode code = ElevenLabsSTT.fallbackLanguage) := by
  constructor
  · intro code lang hmem
    simp only [ElevenLabsSTT.languageMapping, List.mem_cons, List.not_mem_nil,
      or_false, Prod.mk.injEq] at hmem
    rcases hmem with ⟨rfl, rfl⟩ | ⟨rfl, rfl⟩ | ⟨rfl, rfl⟩ | ⟨rfl, rfl⟩
      | ⟨rfl, rfl⟩ | ⟨rfl, rfl⟩ <;> rfl
  · intro code hnone
    simp [ElevenLabsSTT.mapLanguageCode, hnone]

/-- Witness for C6: `zh-TW` normalizes via the table; the unmapped `en-US`
falls back to the default language. -/
theorem mapLanguageCode_witness :
    ElevenLabsSTT.mapLanguageCode "zh-TW" = .zhHantTW
    ∧ ElevenLabsSTT.mapLanguageCode "en-US" = ElevenLabsSTT.fallbackLanguage :=
  ⟨mapLanguageCode_table_and_fallback.1 "zh-TW" .zhHantTW (by decide),
   mapLanguageCode_table_and_fallback.2 "en-US" (by decide)⟩

/-- C7: for reconnect attempt n (1 ≤ n ≤ 5, counter at n−1 before the call)
the scheduled delay is `min(1000 · 2^n, 30000)` and the counter becomes n; the
delays for attempts 1..5 are 2000, 4000, 8000, 16000, 30000; a successful
connection resets the counter to zero. -/
theorem handleReconnect_backoff_formula (s : STTState) (n : Nat)
    (h1 : 1 ≤ n) (h2 : n ≤ 5) (hs : s.reconnectAttempts = n - 1) :
    ((ElevenLabsSTT.handleReconnect s).2
        = [.scheduleReconnect (min (1000 * 2 ^ n) 30000)]
      ∧ (ElevenLabsSTT.handleReconnect s).1.reconnectAttempts = n)
    ∧ ([1, 2, 3, 4, 5].map (fun k =>
        (ElevenLabsSTT.handleReconnect
          { wsPresent := false, isConnected := false,
            reconnectAttempts := k - 1 }).2)
      = [[.scheduleReconnect 2000], [.scheduleReconnect 4000],
         [.scheduleReconnect 8000], [.scheduleReconnect 16000],
         [.scheduleReconnect 30000]])
    ∧ (∀ t : STTState, (ElevenLabsSTT.onOpen t).1.reconnectAttempts = 0) := by
  refine ⟨?_, by decide, fun t => rfl⟩
  have hlt : ¬ s.reconnectAttempts ≥ ElevenLabsSTT.maxReconnectAttempts := by
    simp only [ElevenLabsSTT.maxReconnectAttempts]
    omega
  have hn : s.reconnectAttempts + 1 = n := by omega
  constructor
  · simp only [ElevenLabsSTT.handleReconnect, if_neg hlt, hn]
  · simp only [ElevenLabsSTT.handleReconnect, if_neg hlt, hn]

/-- Witness for C7: the first reconnect attempt from a fresh counter is
scheduled after `min(1000 · 2^1, 30000) = 2000` ms. -/
theorem handleReconnect_backoff_witness :
    (ElevenLabsSTT.handleReconnect
      { wsPresent := true, isConnected := false, reconnectAttempts := 0 }).2
      = [.scheduleReconnect (min (1000 * 2 ^ 1) 30000)] :=
  ((handleReconnect_backoff_formula
    { wsPresent := true, isConnected := false, reconnectAttempts := 0 } 1
    (by decide) (by decide) rfl).1).1

/-- C8: once the counter has reached the cap of 5 consecutive failed attempts
with no intervening success, `handleReconnect` only emits the terminal
`max_reconnect_attempts` signal, leaves the state unchanged, and no number of
further socket closes ever schedules a reconnect; the concrete 6-close trace
from a fresh adapter shows the five backoff delays followed by the terminal
signal and nothing scheduled. -/
theorem handleReconnect_exhaustion (s : STTState)
    (h : ElevenLabsSTT.maxReconnectAttempts ≤ s.reconnectAttempts) :
    ((ElevenLabsSTT.handleReconnect s).2 = [.emit "max_reconnect_attempts"]
      ∧ (ElevenLabsSTT.handleReconnect s).1 = s
      ∧ ∀ n d, STTEffect.scheduleReconnect d ∉ ElevenLabsSTT.closesFrom s n)
    ∧ ElevenLabsSTT.closesFrom
        { wsPresent := true, isConnected := true, reconnectAttempts := 0 } 6
      = [.emit "disconnected", .scheduleReconnect 2000,
         .emit "disconnected", .scheduleReconnect 4000,
         .emit "disconnected", .scheduleReconnect 8000,
         .emit "disconnected", .scheduleReconnect 16000,
         .emit "disconnected", .scheduleReconnect 30000,
         .emit "disconnected", .emit "max_reconnect_attempts"] := by
  refine ⟨⟨?_, ?_, ?_⟩, by decide⟩
  · simp [ElevenLabsSTT.handleReconnect, if_pos h]
  · simp [ElevenLabsSTT.handleReconnect, if_pos h]
  · intro n
    induction n generalizing s with
    | zero =>
      intro d
      simp [ElevenLabsSTT.closesFrom]
    | succ k ih =>
      intro d
      simp only [ElevenLabsSTT.closesFrom, ElevenLabsSTT.onClose,
        ElevenLabsSTT.handleReconnect, if_pos h, List.cons_append,
        List.mem_cons, List.mem_append]
      push_neg
      refine ⟨by simp, by simp, ?_⟩
      exact ⟨by simp, fun hmem => ih { s with isConnected := false } h d hmem⟩

/-- Witness for C8: an adapter whose counter stands at the cap emits only the
terminal signal. -/
theorem handleReconnect_exhaustion_witness :
    (ElevenLabsSTT.handleReconnect
      { wsPresent := false, isConnected := false, reconnectAttempts := 5 }).2
      = [.emit "max_reconnect_attempts"] :=
  ((handleReconnect_exhaustion
    { wsPresent := false, isConnected := false, reconnectAttempts := 5 }
    (by decide)).1).1

/-- C5 (code bug): an explicit `disconnect()` on a connected adapter calls
`ws.close()`, so the socket's still-registered `close` handler runs and —
having no explicit-close check — schedules an automatic reconnect after
2000 ms, contradicting the claim that explicit close suppresses the
reconnect machinery. -/
theorem disconnect_then_close_schedules_reconnect :
    (ElevenLabsSTT.disconnect
      { wsPresent := true, isConnected := true, reconnectAttempts := 0 }).2 = true
    ∧ (ElevenLabsSTT.onClose
        (ElevenLabsSTT.disconnect
          { wsPresent := true, isConnected := true,
            reconnectAttempts := 0 }).1).2
      = [.emit "disconnected", .scheduleReconnect 2000] := by
  decide

/-- C3: `processAudioChunk` on an inactive pipeline is a no-op: no event, no
adapter invocation, state and metrics unchanged. -/
theorem processAudioChunk_inactive_noop (cfg : MeetingConfig)
    (st : PipelineState) (m : MetricsAggregator) (stages : StageOracles)
    (times : ChunkTimes) (h : st.isActive = false) :
    AudioPipeline.processAudioChunk cfg st m stages times
      = { events := [], state := st, metrics := m, calls := [] } := by
  simp [AudioPipeline.processAudioChunk, h]

/-- Witness for C3: a concrete inactive session drops a chunk without any
observable effect even though every stage oracle would succeed. -/
theorem processAudioChunk_inactive_noop_witness :
    AudioPipeline.processAudioChunk
      { meetingUrl := "https://meet.example/abc", targetLanguages := [.ja, .fr],
        enableVoice := true, enableSubtitles := true }
      { isActive := false,
        latencyMetrics := { sttLatency := 0, translationLatency := 0,
                            ttsLatency := 0, totalLatency := 0 } }
      MetricsAggregator.new
      { stt := .ok { text := "hello", language := .ja, isFinal := true,
                     confidence := 1, timestamp := 0 }
        translation := fun _ => .ok []
        tts := fun _ => .ok [] }
      { t0 := 0, sttStart := 1, sttEnd := 2, trStart := 3, trEnd := 4,
        ttsStart := 5, ttsEnd := 6, tEnd := 7 }
      = { events := []
          state :=
            { isActive := false
              latencyMetrics := { sttLatency := 0, translationLatency := 0,
                                  ttsLatency := 0, totalLatency := 0 } }
          metrics := MetricsAggregator.new, calls := [] } :=
  processAudioChunk_inactive_noop _ _ _ _ _ rfl

/-- Counterexample to C2 as stated: when the synthesis stage is the one that
throws, the `translations` event has already been emitted before the failure,
so the events of the chunk are `stt_final`, `translations`, `error` — the
claim that no `translations` event is emitted for a chunk whose
recognition/translation/synthesis processing raises is false. -/
theorem processAudioChunk_tts_failure_keeps_translations_event :
    (AudioPipeline.processAudioChunk
      { meetingUrl := "https://meet.example/abc",
        targetLanguages := [.ja, .zhHantTW, .fr],
        enableVoice := true, enableSubtitles := true }
      { isActive := true,
        latencyMetrics := { sttLatency := 0, translationLatency := 0,
                            ttsLatency := 0, totalLatency := 0 } }
      MetricsAggregator.new
      { stt := .ok { text := "hello", language := .ja, isFinal := true,
                     confidence := 1, timestamp := 0 }
        translation := fun _ =>
          .ok [{ originalText := "hello", translatedText := "bonjour",
                 sourceLang := .ja, targetLang := .fr, confidence := 1,
                 timestamp := 0 }]
        tts := fun _ => .error "TTS synthesis failed" }
      { t0 := 0, sttStart := 1, sttEnd := 2, trStart := 3, trEnd := 4,
        ttsStart := 5, ttsEnd := 6, tEnd := 7 }).events
      = [PipelineEvent.sttFinal
          { text := "hello", language := .ja, isFinal := true,
            confidence := 1, timestamp := 0 },
         PipelineEvent.translations
          [{ originalText := "hello", translatedText := "bonjour",
             sourceLang := .ja, targetLang := .fr, confidence := 1,
             timestamp := 0 }],
         PipelineEvent.errorEvent "TTS synthesis failed"] := by
  rfl

/-- C2 as amended: every stage exception is caught at the top of
`processAudioChunk` and turned into a trailing `error` event carrying the
failure's message, with state and metrics untouched; events already emitted
before the failing stage remain — so a recognition failure emits only
`error`, a translation-fan-out failure emits `stt_final` then `error`
(the whole `translations` event is suppressed, with no partial event and no
`subtitles`/audio), and a synthesis failure emits `stt_final`,
`translations`, then `error` (no audio and no `subtitles` event). -/
theorem processAudioChunk_error_containment (cfg : MeetingConfig)
    (st : PipelineState) (m : MetricsAggregator) (stages : StageOracles)
    (times : ChunkTimes) (hact : st.isActive = true) :
    (∀ e, stages.stt = .error e →
      AudioPipeline.processAudioChunk cfg st m stages times
        = { events := [.errorEvent e], state := st, metrics := m,
            calls := [.stt] })
    ∧ (∀ r e, stages.stt = .ok r → r.isFinal = true →
        stages.translation r = .error e →
      AudioPipeline.processAudioChunk cfg st m stages times
        = { events := [.sttFinal r, .errorEvent e], state := st, metrics := m,
            calls := [.stt, .translation] })
    ∧ (∀ r ts e, stages.stt = .ok r → r.isFinal = true →
        stages.translation r = .ok ts → cfg.enableVoice = true →
        stages.tts ts = .error e →
      AudioPipeline.processAudioChunk cfg st m stages times
        = { events := [.sttFinal r, .translations ts, .errorEvent e],
            state := st, metrics := m,
            calls := [.stt, .translation, .tts] }) := by
  refine ⟨?_, ?_, ?_⟩
  · intro e hstt
    simp [AudioPipeline.processAudioChunk, hact, hstt]
  · intro r e hstt hfin htr
    simp [AudioPipeline.processAudioChunk, hact, hstt, hfin, htr]
  · intro r ts e hstt hfin htr hvoice htts
    simp [AudioPipeline.processAudioChunk, hact, hstt, hfin, htr, hvoice, htts]

/-- Witness for the amended C2: a concrete chunk whose `fr` translation call
rejects produces exactly `stt_final` then `error`, with no `translations`,
`subtitles` or audio event and unchanged metrics. -/
theorem processAudioChunk_error_containment_witness :
    AudioPipeline.processAudioChunk
      { meetingUrl := "https://meet.example/abc",
        targetLanguages := [.ja, .zhHantTW, .fr],
        enableVoice := true, enableSubtitles := true }
      { isActive := true,
        latencyMetrics := { sttLatency := 0, translationLatency := 0,
                            ttsLatency := 0, totalLatency := 0 } }
      MetricsAggregator.new
      { stt := .ok { text := "hello", language := .ja, isFinal := true,
                     confidence := 1, timestamp := 0 }
        translation := fun _ => .error "fr translation rejected"
        tts := fun _ => .ok [] }
      { t0 := 0, sttStart := 1, sttEnd := 2, trStart := 3, trEnd := 4,
        ttsStart := 5, ttsEnd := 6, tEnd := 7 }
      = { events := [.sttFinal
            { text := "hello", language := .ja, isFinal := true,
              confidence := 1, timestamp := 0 },
            .errorEvent "fr translation rejected"]
          state :=
            { isActive := true
              latencyMetrics := { sttLatency := 0, translationLatency := 0,
                                  ttsLatency := 0, totalLatency := 0 } }
          metrics := MetricsAggregator.new
          calls := [.stt, .translation] } :=
  (processAudioChunk_error_containment _ _ _ _ _ rfl).2.1
    { text := "hello", language := .ja, isFinal := true,
      confidence := 1, timestamp := 0 }
    "fr translation rejected" rfl rfl rfl

/-- C10: a chunk whose recognition result is final and whose processing
completes with voice output disabled still pushes a synthesis-stage duration
sample equal to 0 into the metrics aggregator's tts bucket, alongside one new
sample each in the stt, translation and total buckets, and sets the latency
snapshot's ttsLatency to 0. -/
theorem processAudioChunk_voice_disabled_tts_zero_sample (cfg : MeetingConfig)
    (st : PipelineState) (m : MetricsAggregator) (stages : StageOracles)
    (times : ChunkTimes) (r : STTResult) (ts : List TranslationResult)
    (hact : st.isActive = true) (hstt : stages.stt = .ok r)
    (hfin : r.isFinal = true) (htr : stages.translation r = .ok ts)
    (hvoice : cfg.enableVoice = false) :
    (AudioPipeline.processAudioChunk cfg st m stages times).metrics.tts
      = m.tts ++ [0]
    ∧ (AudioPipeline.processAudioChunk cfg st m stages times).metrics.stt.length
      = m.stt.length + 1
    ∧ (AudioPipeline.processAudioChunk cfg st m stages
        times).metrics.translation.length
      = m.translation.length + 1
    ∧ (AudioPipeline.processAudioChunk cfg st m stages times).metrics.total.length
      = m.total.length + 1
    ∧ (AudioPipeline.processAudioChunk cfg st m stages
        times).state.latencyMetrics.ttsLatency = 0 := by
  refine ⟨?_, ?_, ?_, ?_, ?_⟩ <;>
    simp [AudioPipeline.processAudioChunk, hact, hstt, hfin, htr, hvoice,
      MetricsAggregator.addMetric]

/-- Witness for C10: a concrete voice-disabled chunk appends the zero tts
sample (and one sample to each of the other three buckets). -/
theorem processAudioChunk_voice_disabled_witness :
    (AudioPipeline.processAudioChunk
      { meetingUrl := "https://meet.example/abc",
        targetLanguages := [.ja, .zhHantTW, .fr],
        enableVoice := false, enableSubtitles := true }
      { isActive := true,
        latencyMetrics := { sttLatency := 0, translationLatency := 0,
                            ttsLatency := 0, totalLatency := 0 } }
      { stt := [4], translation := [5], tts := [6], total := [7] }
      { stt := .ok { text := "hello", language := .ja, isFinal := true,
                     confidence := 1, timestamp := 0 }
        translation := fun _ => .ok []
        tts := fun _ => .ok [] }
      { t0 := 0, sttStart := 1, sttEnd := 2, trStart := 3, trEnd := 4,
        ttsStart := 5, ttsEnd := 6, tEnd := 7 }).metrics.tts
      = ([6] : List Int) ++ [0] :=
  (processAudioChunk_voice_disabled_tts_zero_sample _ _ _ _ _ _ _
    rfl rfl rfl rfl rfl).1

/-- Counterexample to C9 as stated: supplying the (empty-string) voice id in
the settings object does not update the profile's voice id — the JS `||`
merge treats the supplied `""` as absent and keeps the current default. -/
theorem setVoiceSettings_empty_voiceId_ignored :
    (ElevenLabsTTS.setVoiceSettings ElevenLabsTTS.defaultVoiceSettings .ja
      { voiceId := some "", stability := none, similarityBoost := none }
      .ja).voiceId = "EXAVITQu4vr4xnSDxMaL"
    ∧ ("" : String) ≠ "EXAVITQu4vr4xnSDxMaL" := by
  decide

/-- C9 as amended: the setter leaves the voice profile of every other language
unchanged; stability and similarity are updated exactly when supplied and
kept otherwise; the voice id is updated when a non-empty voice id is
supplied, and kept both when no voice id is supplied and when the supplied
voice id is the empty string (the `||` merge drops it). -/
theorem setVoiceSettings_merge (vs : SupportedLanguage → VoiceSetting)
    (lang : SupportedLanguage) (settings : VoiceSettingsUpdate) :
    (∀ l, l ≠ lang → ElevenLabsTTS.setVoiceSettings vs lang settings l = vs l)
    ∧ (settings.stability = none →
        (ElevenLabsTTS.setVoiceSettings vs lang settings lang).stability
          = (vs lang).stability)
    ∧ (∀ q, settings.stability = some q →
        (ElevenLabsTTS.setVoiceSettings vs lang settings lang).stability = q)
    ∧ (settings.similarityBoost = none →
        (ElevenLabsTTS.setVoiceSettings vs lang settings lang).similarityBoost
          = (vs lang).similarityBoost)
    ∧ (∀ q, settings.similarityBoost = some q →
        (ElevenLabsTTS.setVoiceSettings vs lang settings
          lang).similarityBoost = q)
    ∧ (settings.voiceId = none →
        (ElevenLabsTTS.setVoiceSettings vs lang settings lang).voiceId
          = (vs lang).voiceId)
    ∧ (∀ v, settings.voiceId = some v → v ≠ "" →
        (ElevenLabsTTS.setVoiceSettings vs lang settings lang).voiceId = v)
    ∧ (settings.voiceId = some "" →
        (ElevenLabsTTS.setVoiceSettings vs lang settings lang).voiceId
          = (vs lang).voiceId) := by
  refine ⟨?_, ?_, ?_, ?_, ?_, ?_, ?_, ?_⟩
  · intro l hl
    simp [ElevenLabsTTS.setVoiceSettings, hl]
  · intro h
    simp [ElevenLabsTTS.setVoiceSettings, jsNullish, h]
  · intro q h
    simp [ElevenLabsTTS.setVoiceSettings, jsNullish, h]
  · intro h
    simp [ElevenLabsTTS.setVoiceSettings, jsNullish, h]
  · intro q h
    simp [ElevenLabsTTS.setVoiceSettings, jsNullish, h]
  · intro h
    simp [ElevenLabsTTS.setVoiceSettings, jsStringOr, h]
  · intro v h hv
    simp [ElevenLabsTTS.setVoiceSettings, jsStringOr, h, hv]
  · intro h
    simp [ElevenLabsTTS.setVoiceSettings, jsStringOr, h]

/-- Witness for the amended C9: updating only the stability of `ja` with a
non-empty voice id changes exactly those fields of `ja`'s profile and leaves
the `fr` profile untouched. -/
theorem setVoiceSettings_merge_witness :
    ElevenLabsTTS.setVoiceSettings ElevenLabsTTS.defaultVoiceSettings .ja
      { voiceId := some "newVoice", stability := some (1 / 4),
        similarityBoost := none } .fr
      = ElevenLabsTTS.defaultVoiceSettings .fr
    ∧ (ElevenLabsTTS.setVoiceSettings ElevenLabsTTS.defaultVoiceSettings .ja
        { voiceId := some "newVoice", stability := some (1 / 4),
          similarityBoost := none } .ja).voiceId = "newVoice"
    ∧ (ElevenLabsTTS.setVoiceSettings ElevenLabsTTS.defaultVoiceSettings .ja
        { voiceId := some "newVoice", stability := some (1 / 4),
          similarityBoost := none } .ja).similarityBoost
      = (ElevenLabsTTS.defaultVoiceSettings SupportedLanguage.ja).similarityBoost :=
  ⟨(setVoiceSettings_merge ElevenLabsTTS.defaultVoiceSettings .ja
      { voiceId := some "newVoice", stability := some (1 / 4),
        similarityBoost := none }).1 .fr (by decide),
   (setVoiceSettings_merge ElevenLabsTTS.defaultVoiceSettings .ja
      { voiceId := some "newVoice", stability := some (1 / 4),
        similarityBoost := none }).2.2.2.2.2.2.1 "newVoice" rfl (by decide),
   (setVoiceSettings_merge ElevenLabsTTS.defaultVoiceSettings .ja
      { voiceId := some "newVoice", stability := some (1 / 4),
        similarityBoost := none }).2.2.2.1 rfl⟩
